import Mathlib

/-!
Verification of src/py/webutil.py (restpie3): request lifecycle hooks,
authorization decorators, error replies and the REST JSON encoder, as a
shallow embedding.  Python dicts with string keys and values are modelled
as insertion ordered association lists, machine strings as String, wall
clock times as rationals, and the possible results of a hook as explicit
outcome values.
-/

namespace Webutil

/-- One character string holding the ASCII single quote, used by the Python
dict rendering below. -/
def squote : String := String.singleton (Char.ofNat 39)

/-- Python repr of a plain string value: the string surrounded by single
quotes (escaping inside the value is not needed by any input considered
here). -/
def pyReprStr (s : String) : String := squote ++ s ++ squote

/-- Python str of a dict with string keys and values, in insertion order. -/
def pyStrDict (d : List (String × String)) : String :=
  "\x7b" ++ String.intercalate (", ")
      (d.map (fun kv => pyReprStr kv.1 ++ (": ") ++ pyReprStr kv.2)) ++ "\x7d"

/-- Python string slicing with an upper bound only: the first n characters. -/
def pySlice (s : String) (n : Nat) : String := String.mk (s.data.take n)

/-- Keys of a dict, in order. -/
def keysOf (d : List (String × String)) : List String := d.map Prod.fst

/-- Python dict assignment: replaces the value in place when the key exists,
otherwise appends the new pair at the end. -/
def dictSet (d : List (String × String)) (k v : String) :
    List (String × String) :=
  if (keysOf d).contains k then
    d.map (fun kv => if kv.1 = k then (k, v) else kv)
  else d ++ [(k, v)]

/-- The secret key list of before_request. -/
def secret_keys : List String := ["password", "passwd", "pwd"]

/-- The redaction loop of before_request: for each secret key present in the
original params the value in the copy is overwritten with the letter X.
Membership is tested against the original params exactly as in the source;
the lazy creation of the copy does not change the resulting dict and is
flattened here. -/
def redactSecrets (params : List (String × String)) : List (String × String) :=
  secret_keys.foldl
    (fun cloned k =>
      if (keysOf params).contains k then dictSet cloned k ("X") else cloned)
    params

/-- A request as far as this module reads it.  The three parameter sources
are dicts, an absent or empty source being the empty list (falsy); the
session is modelled by its single relevant key, userid. -/
structure Request where
  method : String
  path : String
  url : String
  hostHeader : String
  json : List (String × String)
  args : List (String × String)
  form : List (String × String)
  sessionUserid : Option Nat
deriving DecidableEq

/-- The parameter source picked by before_request: request.json or
request.args or request.form, the Python or returning the first truthy
operand and the last one otherwise. -/
def pickParams (r : Request) : List (String × String) :=
  if r.json ≠ [] then r.json else if r.args ≠ [] then r.args else r.form

/-- The params part of the request log line: str of the redacted params
(an empty dict is falsy and yields the empty string), sliced to 1000
characters. -/
def loggedParamsStr (params : List (String × String)) : String :=
  pySlice (if params = [] then "" else pyStrDict (redactSecrets params)) 1000

/-- The info line logged by before_request: the first two characters of the
method, the path and the bounded params string, separated by single
spaces. -/
def before_request_logline (r : Request) : String :=
  pySlice r.method 2 ++ " " ++ r.path ++ " " ++ loggedParamsStr (pickParams r)

inductive LogLevel
  | info
  | warning
  | error
deriving DecidableEq

structure LogEvent where
  level : LogLevel
  msg : String
deriving DecidableEq

/-- A JSON error response of this module: jsonify of a dict with the single
key err, paired with the HTTP status code. -/
structure Response where
  err : String
  status : Nat
deriving DecidableEq

/-- Logs an error and returns the error body to the caller.  The Python
default for httpcode is 400; call sites here pass it explicitly. -/
def error_reply (errmsg : String) (httpcode : Nat) : LogEvent × Response :=
  (⟨LogLevel.error, errmsg⟩, ⟨toString httpcode ++ (": ") ++ errmsg, httpcode⟩)

/-- Logs a warning and returns the error body to the caller. -/
def warn_reply (errmsg : String) (httpcode : Nat) : LogEvent × Response :=
  (⟨LogLevel.warning, errmsg⟩, ⟨toString httpcode ++ (": ") ++ errmsg, httpcode⟩)

/-- A user record as this module reads it: only the id and the role
attribute matter here. -/
structure User where
  id : Nat
  role : String
deriving DecidableEq

/-- A Python exception escaping a hook. -/
inductive PyExc
  | nameError (n : String)
deriving DecidableEq

inductive DbState
  | unset
  | opened
  | closed
deriving DecidableEq

/-- The request scoped global g, with the attributes this module stores on
it.  The db and t1 attributes may be absent, matching hasattr checks;
ISLOGGED and IS_SUPER_USER are modelled as booleans. -/
structure GCtx where
  db : DbState
  HOST : String
  MYSELF : Option User
  ISLOGGED : Bool
  IS_SUPER_USER : Bool
  t1 : Option ℚ
deriving DecidableEq

/-- Names bound at module level in webutil.py: its imports and its top
level definitions.  The module never imports itself, so the name webutil is
absent from this list. -/
def webutilGlobals : List String :=
  ["time", "peewee", "functools", "Flask", "request", "session", "g",
   "redirect", "abort", "jsonify", "Session", "JSONEncoder", "db", "config",
   "datetime", "logging", "log", "app", "login_required", "local_dev_only",
   "_check_user_role", "error_reply", "warn_reply", "get_agent", "get_ip",
   "before_request", "after_request", "teardown", "page_not_found",
   "MyLogContextFilter", "init_logging", "MyJSONEncoder"]

/-- How before_request ends: fall through to the view, return a response
(which the framework sends instead of calling the view), or escape with an
uncaught exception. -/
inductive Outcome
  | proceed
  | respond (resp : Response)
  | raise (e : PyExc)
deriving DecidableEq

structure BeforeResult where
  logs : List LogEvent
  g : GCtx
  sessionUserid : Option Nat
  outcome : Outcome
deriving DecidableEq

/-- The part of before_request from the ISLOGGED assignment on, as a
function of the resolved user me: sets the login flags, rejects a disabled
account with a plain 400 body, and otherwise stores the start time and
proceeds. -/
def before_request_tail (logline : LogEvent) (g1 : GCtx) (sess : Option Nat)
    (now : ℚ) (me : Option User) : BeforeResult :=
  let g2 : GCtx :=
    { g1 with
      MYSELF := me
      ISLOGGED := me.isSome
      IS_SUPER_USER := (match me with
        | some u => u.role == ("superuser")
        | none => false) }
  match me with
  | some u =>
    if u.role == ("disabled") then
      { logs := [logline, ⟨LogLevel.warning, ("account disabled")⟩]
        g := g2
        sessionUserid := sess
        outcome := Outcome.respond ⟨("account disabled"), 400⟩ }
    else
      { logs := [logline]
        g := { g2 with t1 := some now }
        sessionUserid := sess
        outcome := Outcome.proceed }
  | none =>
      { logs := [logline]
        g := { g2 with t1 := some now }
        sessionUserid := sess
        outcome := Outcome.proceed }

/-- before_request.  It logs the request line, opens the db connection and
stores the host header, then loads the current user: when the session holds
a userid whose lookup raises (getUser returns none), the except branch
clears the session and evaluates the expression webutil.error_reply, whose
head name webutil is resolved against the module globals first; since it is
unbound there, a NameError escapes the hook. -/
def before_request (getUser : Nat → Option User) (now : ℚ) (r : Request) :
    BeforeResult :=
  let logline : LogEvent := ⟨LogLevel.info, before_request_logline r⟩
  let g1 : GCtx :=
    { db := DbState.opened
      HOST := r.hostHeader
      MYSELF := none
      ISLOGGED := false
      IS_SUPER_USER := false
      t1 := none }
  match r.sessionUserid with
  | none => before_request_tail logline g1 r.sessionUserid now none
  | some uid =>
    match getUser uid with
    | some me => before_request_tail logline g1 r.sessionUserid now (some me)
    | none =>
      if webutilGlobals.contains ("webutil") then
        let er := error_reply ("unknown uid") 400
        { logs := [logline, er.1]
          g := g1
          sessionUserid := none
          outcome := Outcome.respond er.2 }
      else
        { logs := [logline]
          g := g1
          sessionUserid := none
          outcome := Outcome.raise (PyExc.nameError ("webutil")) }

/-- after_request: picks the log method by status code, logs the status,
method and url when one was picked, and passes the response through
unchanged.  Returns the emitted log events. -/
def after_request (status : Nat) (method url : String) : List LogEvent :=
  let msg := ("  ") ++ toString status ++ (" ") ++ method ++ (" ") ++ url
  if 400 ≤ status ∧ status ≤ 599 then [⟨LogLevel.error, msg⟩]
  else if ¬ (200 ≤ status ∧ status < 399) then [⟨LogLevel.warning, msg⟩]
  else []

structure TeardownResult where
  g : GCtx
  logs : List LogEvent
deriving DecidableEq

/-- teardown: closes the db connection when g carries one, and emits one
slow warning when more than one second elapsed since g.t1.  The numeric
rendering of the elapsed time abstracts the Python float formatting. -/
def teardown (g : GCtx) (path : String) (now : ℚ) : TeardownResult :=
  let g2 := if g.db ≠ DbState.unset then { g with db := DbState.closed } else g
  let logs :=
    match g.t1 with
    | some t1 =>
      if now - t1 > 1 then
        [⟨LogLevel.warning,
          ("SLOW! ") ++ path ++ (" time=") ++ toString (now - t1)⟩]
      else []
    | none => []
  ⟨g2, logs⟩

/-- The 404 error handler: a JSON body holding the failing path behind the
status code text. -/
def page_not_found (path : String) : Response :=
  ⟨("404: ") ++ path, 404⟩

/-- str of g.MYSELF as the unauthorized message renders it: None when no
user is resolved, otherwise the repr of the user object (defined by db.py
outside src; its exact shape is immaterial to every claim). -/
def pyStrMyself : Option User → String
  | none => ("None")
  | some u => ("<User: ") ++ toString u.id ++ (">")

/-- The message of the unauthorized warn reply. -/
def unauthorizedMsg (method path : String) (myself : Option User) : String :=
  ("Unauthorized! ") ++ method ++ (" ") ++ path ++ (" user=") ++
    pyStrMyself myself

/-- Check that the current user has at least the given role.  The
is_role_atleast method lives in db.py outside src and is taken as a
parameter.  Returns the 401 warn reply when the user is missing or the role
is insufficient, and none otherwise. -/
def _check_user_role (isRoleAtleast : User → Option String → Bool)
    (myself : Option User) (method path : String) (role : Option String) :
    Option (LogEvent × Response) :=
  match myself with
  | none => some (warn_reply (unauthorizedMsg method path none) 401)
  | some u =>
    if isRoleAtleast u role then none
    else some (warn_reply (unauthorizedMsg method path (some u)) 401)

/-- The wrapper produced by login_required: evaluates the role check first
and short circuits on its reply (a tuple, always truthy), invoking the
wrapped handler otherwise (the check returns None, which is falsy). -/
def login_required_call {α : Type} (isRoleAtleast : User → Option String → Bool)
    (role : Option String) (myself : Option User) (method path : String)
    (func : Unit → α) : Sum (LogEvent × Response) α :=
  match _check_user_role isRoleAtleast myself method path role with
  | some reply => Sum.inl reply
  | none => Sum.inr (func ())

/-- What the view produces when the framework invokes it: a response, or an
exception it raises. -/
inductive ViewResult
  | ok (resp : Response)
  | raises (e : PyExc)

/-- The framework error page for an uncaught exception; its body is not
produced by this module and is abstracted. -/
def frameworkError500 : Response := ⟨("Internal Server Error"), 500⟩

structure LifecycleResult where
  response : Response
  viewInvoked : Bool
  finalG : GCtx
  teardownLogs : List LogEvent

/-- The request lifecycle as the framework runs it: before_request first; a
response returned by it short circuits the view; an exception escaping any
stage becomes the framework 500 page; teardown always runs last. -/
def handle_request (getUser : Nat → Option User) (t0 tEnd : ℚ) (r : Request)
    (view : Unit → ViewResult) : LifecycleResult :=
  let b := before_request getUser t0 r
  match b.outcome with
  | Outcome.respond resp =>
    let td := teardown b.g r.path tEnd
    ⟨resp, false, td.g, td.logs⟩
  | Outcome.raise _ =>
    let td := teardown b.g r.path tEnd
    ⟨frameworkError500, false, td.g, td.logs⟩
  | Outcome.proceed =>
    match view () with
    | ViewResult.ok resp =>
      let td := teardown b.g r.path tEnd
      ⟨resp, true, td.g, td.logs⟩
    | ViewResult.raises _ =>
      let td := teardown b.g r.path tEnd
      ⟨frameworkError500, true, td.g, td.logs⟩

/-- A domain model instance; its serialize method is defined by db.py
outside src, so its output is carried as data. -/
structure BaseModel where
  serialize : String
deriving DecidableEq

/-- A datetime value, to the precision isoformat needs here. -/
structure PyDatetime where
  year : Nat
  month : Nat
  day : Nat
  hour : Nat
  minute : Nat
  second : Nat
deriving DecidableEq

def pad2 (n : Nat) : String :=
  if n < 10 then ("0") ++ toString n else toString n

def pad4 (n : Nat) : String :=
  if n < 10 then ("000") ++ toString n
  else if n < 100 then ("00") ++ toString n
  else if n < 1000 then ("0") ++ toString n
  else toString n

/-- datetime.isoformat without microseconds or timezone. -/
def isoformat (d : PyDatetime) : String :=
  pad4 d.year ++ ("-") ++ pad2 d.month ++ ("-") ++ pad2 d.day ++ ("T") ++
  pad2 d.hour ++ (":") ++ pad2 d.minute ++ (":") ++ pad2 d.second

/-- Python truthiness of a datetime instance: datetime defines no length or
boolean conversion, so every instance is truthy. -/
def pyTruthyDatetime (_ : PyDatetime) : Bool := true

/-- The runtime types MyJSONEncoder.default distinguishes. -/
inductive PyVal
  | selectQuery (rows : List BaseModel)
  | modelV (m : BaseModel)
  | datetimeV (d : PyDatetime)
  | otherV (tag : String)
deriving DecidableEq

/-- What default returns: a list of rows, the output of serialize, an
isoformat string, None, or whatever JSONEncoder.default does with the
object. -/
inductive EncodedVal
  | rowList (rows : List BaseModel)
  | fromSerialize (s : String)
  | isoString (s : String)
  | pyNone
  | baseDefault (tag : String)
deriving DecidableEq

/-- MyJSONEncoder.default: a select query becomes the list of its rows in
order, a model serializes itself, a datetime renders via isoformat when
truthy and None otherwise, and anything else falls through to
JSONEncoder.default. -/
def MyJSONEncoder_default : PyVal → EncodedVal
  | PyVal.selectQuery rows => EncodedVal.rowList rows
  | PyVal.modelV m => EncodedVal.fromSerialize m.serialize
  | PyVal.datetimeV d =>
      if pyTruthyDatetime d then EncodedVal.isoString (isoformat d)
      else EncodedVal.pyNone
  | PyVal.otherV t => EncodedVal.baseDefault t

/-- Whether needle occurs at the start of hay. -/
def beginsWithList : List Char → List Char → Bool
  | _, [] => true
  | [], _ :: _ => false
  | h :: hs, n :: ns => h == n && beginsWithList hs ns

/-- Whether needle occurs somewhere in hay. -/
def hasSubList (needle : List Char) : List Char → Bool
  | [] => beginsWithList [] needle
  | h :: hs => beginsWithList (h :: hs) needle || hasSubList needle hs

/-- Whether needle occurs as a contiguous substring of hay. -/
def strHasSub (hay needle : String) : Bool :=
  hasSubList needle.data hay.data

/-- Pointwise description of the redaction loop, used to state what the
logged string may depend on: every entry under a secret key gets the value
X, every other entry is unchanged. -/
def redactPointwise (params : List (String × String)) :
    List (String × String) :=
  params.map (fun kv => if secret_keys.contains kv.1 then (kv.1, ("X")) else kv)

/-- User lookup where every lookup raises (db.get_user raises when the id
matches no record; the raised outcome is modelled as none). -/
def getUserRaises : Nat → Option User := fun _ => none

/-- A request whose session carries a userid that no longer resolves. -/
def reqStaleSession : Request :=
  { method := ("GET")
    path := ("/api/me")
    url := ("http://localhost/api/me")
    hostHeader := ("")
    json := []
    args := []
    form := []
    sessionUserid := some 7 }

/-- Claim C1: when the stored userid fails to resolve, before_request does
clear the session, but the reply expression names the global webutil, which
the module never binds, so a NameError escapes the hook instead of the 400
unknown uid reply being returned. -/
theorem unknown_uid_clears_session_but_raises_nameerror :
    ("webutil") ∉ webutilGlobals ∧
    (before_request getUserRaises 0 reqStaleSession).sessionUserid = none ∧
    (before_request getUserRaises 0 reqStaleSession).outcome =
      Outcome.raise (PyExc.nameError ("webutil")) := by
  refine ⟨by decide, rfl, rfl⟩

/-- Claim C9: MyJSONEncoder.default returns the ordered rows of a select
query, the serialize output of a model instance, the isoformat string of a
datetime (the None branch being unreachable since datetime instances are
always truthy), and the base encoder result for every other value. -/
theorem myjsonencoder_default_cases :
    (∀ rows, MyJSONEncoder_default (PyVal.selectQuery rows) =
        EncodedVal.rowList rows) ∧
    (∀ m, MyJSONEncoder_default (PyVal.modelV m) =
        EncodedVal.fromSerialize m.serialize) ∧
    (∀ d, MyJSONEncoder_default (PyVal.datetimeV d) =
        EncodedVal.isoString (isoformat d)) ∧
    (∀ t, MyJSONEncoder_default (PyVal.otherV t) =
        EncodedVal.baseDefault t) :=
  ⟨fun _ => rfl, fun _ => rfl, fun _ => rfl, fun _ => rfl⟩

/-- Claim C6 counterexample: status 399 is a 3xx status code, yet
after_request logs a warning for it, because the success test of the code
stops at 398. -/
theorem status_399_logged_as_warning :
    (300 ≤ 399 ∧ 399 < 400) ∧
    after_request 399 ("GET") ("http://localhost/x") =
      [⟨LogLevel.warning, ("  399 GET http://localhost/x")⟩] := by
  exact ⟨by decide, rfl⟩

/-- Claim C6 amended: after_request logs an error for every status from 400
to 599, logs nothing for statuses 200 to 398, and logs a warning for every
other status code, including 399. -/
theorem after_request_log_classes (status : Nat) (method url : String) :
    (400 ≤ status → status ≤ 599 →
      after_request status method url =
        [⟨LogLevel.error,
          ("  ") ++ toString status ++ (" ") ++ method ++ (" ") ++ url⟩]) ∧
    (200 ≤ status → status < 399 →
      after_request status method url = []) ∧
    (¬ (200 ≤ status ∧ status < 399) → ¬ (400 ≤ status ∧ status ≤ 599) →
      after_request status method url =
        [⟨LogLevel.warning,
          ("  ") ++ toString status ++ (" ") ++ method ++ (" ") ++ url⟩]) := by
  refine ⟨?_, ?_, ?_⟩
  · intro h1 h2
    simp only [after_request]
    rw [if_pos ⟨h1, h2⟩]
  · intro h1 h2
    simp only [after_request]
    rw [if_neg (by omega), if_neg (by omega)]
  · intro h1 h2
    simp only [after_request]
    rw [if_neg h2, if_pos h1]

/-- Witness for after_request_log_classes at the error status 404. -/
theorem after_request_log_classes_witness :
    (400 ≤ 404 ∧ 404 ≤ 599) ∧
    after_request 404 ("GET") ("http://localhost/x") =
      [⟨LogLevel.error,
        ("  ") ++ toString 404 ++ (" ") ++ ("GET") ++ (" ") ++
          ("http://localhost/x")⟩] :=
  ⟨by decide,
    (after_request_log_classes 404 ("GET") ("http://localhost/x")).1
      (by decide) (by decide)⟩

/-- Claim C8: when g carries a start time, teardown emits exactly the one
slow warning naming the path and the elapsed time when more than one second
elapsed, and no log entry at all when the elapsed time is at most one
second. -/
theorem slow_request_warning (g : GCtx) (path : String) (tEnd t1 : ℚ)
    (h : g.t1 = some t1) :
    (tEnd - t1 > 1 →
      (teardown g path tEnd).logs =
        [⟨LogLevel.warning,
          ("SLOW! ") ++ path ++ (" time=") ++ toString (tEnd - t1)⟩]) ∧
    (tEnd - t1 ≤ 1 → (teardown g path tEnd).logs = []) := by
  simp only [teardown, h]
  constructor
  · intro hq
    rw [if_pos hq]
  · intro hq
    rw [if_neg (not_lt.mpr hq)]

/-- A request context that started at time zero. -/
def gSlow : GCtx :=
  { db := DbState.opened
    HOST := ("")
    MYSELF := none
    ISLOGGED := false
    IS_SUPER_USER := false
    t1 := some 0 }

/-- Witness for slow_request_warning with a two second request. -/
theorem slow_request_warning_witness :
    ((2 : ℚ) - 0 > 1) ∧
    (teardown gSlow ("/slow") 2).logs =
      [⟨LogLevel.warning,
        ("SLOW! ") ++ ("/slow") ++ (" time=") ++ toString ((2 : ℚ) - 0)⟩] :=
  ⟨by norm_num, (slow_request_warning gSlow ("/slow") 2 0 rfl).1 (by norm_num)⟩

lemma before_request_tail_db (logline : LogEvent) (g1 : GCtx)
    (sess : Option Nat) (now : ℚ) (me : Option User) :
    (before_request_tail logline g1 sess now me).g.db = g1.db := by
  cases me with
  | none => rfl
  | some u =>
    by_cases hc : (u.role == ("disabled")) = true
    · simp only [before_request_tail]
      rw [if_pos hc]
    · simp only [before_request_tail]
      rw [if_neg hc]

lemma before_request_db (gu : Nat → Option User) (t0 : ℚ) (r : Request) :
    (before_request gu t0 r).g.db = DbState.opened := by
  cases hs : r.sessionUserid with
  | none => simp only [before_request, hs, before_request_tail_db]
  | some uid =>
    cases hgu : gu uid with
    | some me => simp only [before_request, hs, hgu, before_request_tail_db]
    | none =>
      simp only [before_request, hs, hgu]
      rw [if_neg (by decide)]

lemma teardown_closes (g : GCtx) (path : String) (now : ℚ)
    (h : g.db ≠ DbState.unset) :
    (teardown g path now).g.db = DbState.closed := by
  simp only [teardown]
  rw [if_pos h]

/-- Claim C7: before_request stores an open connection on g on every path of
its own, and the teardown the framework always runs closes it on every
lifecycle path, a raising view included. -/
theorem db_connection_always_closed (gu : Nat → Option User) (t0 tEnd : ℚ)
    (r : Request) (view : Unit → ViewResult) :
    (before_request gu t0 r).g.db = DbState.opened ∧
    (handle_request gu t0 tEnd r view).finalG.db = DbState.closed := by
  have hdb := before_request_db gu t0 r
  have hne : (before_request gu t0 r).g.db ≠ DbState.unset := by
    rw [hdb]
    decide
  refine ⟨hdb, ?_⟩
  cases ho : (before_request gu t0 r).outcome with
  | proceed =>
    cases hv : view () with
    | ok resp =>
      simp only [handle_request, ho, hv]
      exact teardown_closes _ _ _ hne
    | raises e =>
      simp only [handle_request, ho, hv]
      exact teardown_closes _ _ _ hne
  | respond resp =>
    simp only [handle_request, ho]
    exact teardown_closes _ _ _ hne
  | raise e =>
    simp only [handle_request, ho]
    exact teardown_closes _ _ _ hne

lemma before_request_disabled_outcome (gu : Nat → Option User) (t0 : ℚ)
    (r : Request) (uid : Nat) (u : User) (hs : r.sessionUserid = some uid)
    (hg : gu uid = some u) (hd : u.role = ("disabled")) :
    (before_request gu t0 r).outcome =
      Outcome.respond ⟨("account disabled"), 400⟩ := by
  simp only [before_request, hs, hg, before_request_tail, hd]
  rw [if_pos (by decide : ((("disabled") : String) == ("disabled")) = true)]

/-- Claim C4: a request whose session resolves to a user with the role
disabled is answered by before_request with the plain 400 body, and the
view is never invoked, whatever view (and hence whatever decorator chain)
the route carries. -/
theorem disabled_account_rejected_before_view (gu : Nat → Option User)
    (t0 tEnd : ℚ) (r : Request) (view : Unit → ViewResult) (uid : Nat)
    (u : User) (hs : r.sessionUserid = some uid) (hg : gu uid = some u)
    (hd : u.role = ("disabled")) :
    (handle_request gu t0 tEnd r view).response =
      ⟨("account disabled"), 400⟩ ∧
    (handle_request gu t0 tEnd r view).viewInvoked = false := by
  have ho := before_request_disabled_outcome gu t0 r uid u hs hg hd
  constructor
  · simp only [handle_request, ho]
  · simp only [handle_request, ho]

/-- User lookup resolving every id to a disabled user. -/
def getUserDisabled : Nat → Option User := fun _ => some ⟨1, ("disabled")⟩

/-- A request whose session carries userid 1. -/
def reqDisabled : Request :=
  { method := ("GET")
    path := ("/api/me")
    url := ("http://localhost/api/me")
    hostHeader := ("")
    json := []
    args := []
    form := []
    sessionUserid := some 1 }

/-- A view that would answer 200. -/
def viewOkPing : Unit → ViewResult := fun _ => ViewResult.ok ⟨("pong"), 200⟩

/-- Witness for disabled_account_rejected_before_view. -/
theorem disabled_account_rejected_before_view_witness :
    (handle_request getUserDisabled 0 0 reqDisabled viewOkPing).response =
      ⟨("account disabled"), 400⟩ ∧
    (handle_request getUserDisabled 0 0 reqDisabled viewOkPing).viewInvoked =
      false :=
  disabled_account_rejected_before_view getUserDisabled 0 0 reqDisabled
    viewOkPing 1 ⟨1, ("disabled")⟩ rfl rfl rfl

/-- Claim C2 counterexample: the disabled account rejection is an error
response of this module whose 400 status does not appear in its body; the
body is the bare message, so the body shape of the claim fails for it. -/
theorem disabled_reply_lacks_status_code_text :
    (before_request getUserDisabled 0 reqDisabled).outcome =
      Outcome.respond ⟨("account disabled"), 400⟩ ∧
    ¬ ∃ m : String, ("account disabled") = ("400: ") ++ m := by
  constructor
  · rfl
  · rintro ⟨m, hm⟩
    have h : ("account disabled").data = ("400: ").data ++ m.data := by
      have hd := congrArg String.data hm
      rwa [String.data_append] at hd
    have h5 := congrArg (List.take 5) h
    rw [show (5 : Nat) = ("400: ").data.length from rfl] at h5
    rw [List.take_left] at h5
    exact absurd h5 (by decide)

/-- Claim C2 amended: every reply built by error_reply or warn_reply and the
404 page carry a body of the form code colon message with the code equal to
the response status; the disabled account rejection alone returns its bare
message without the status code text. -/
theorem error_body_shapes (errmsg path : String) (httpcode : Nat) :
    (∃ m, (error_reply errmsg httpcode).2.err =
        toString (error_reply errmsg httpcode).2.status ++ (": ") ++ m) ∧
    (∃ m, (warn_reply errmsg httpcode).2.err =
        toString (warn_reply errmsg httpcode).2.status ++ (": ") ++ m) ∧
    (∃ m, (page_not_found path).err =
        toString (page_not_found path).status ++ (": ") ++ m) ∧
    (∀ gu : Nat → Option User, ∀ t0 : ℚ, ∀ r : Request, ∀ uid : Nat,
      ∀ u : User, r.sessionUserid = some uid → gu uid = some u →
      u.role = ("disabled") →
      (before_request gu t0 r).outcome =
        Outcome.respond ⟨("account disabled"), 400⟩) := by
  refine ⟨⟨errmsg, rfl⟩, ⟨errmsg, rfl⟩, ⟨path, ?_⟩, ?_⟩
  · have h404 : (("404: ") : String) = toString (404 : Nat) ++ (": ") := by
      decide
    simp only [page_not_found]
    rw [← h404]
  · intro gu t0 r uid u hs hg hd
    exact before_request_disabled_outcome gu t0 r uid u hs hg hd

/-- Witness for error_body_shapes, instantiating the 404 shape and the
disabled branch. -/
theorem error_body_shapes_witness :
    (∃ m, (page_not_found ("/nope")).err =
        toString (page_not_found ("/nope")).status ++ (": ") ++ m) ∧
    (before_request getUserDisabled 0 reqDisabled).outcome =
      Outcome.respond ⟨("account disabled"), 400⟩ :=
  ⟨(error_body_shapes ("x") ("/nope") 400).2.2.1,
    (error_body_shapes ("x") ("/nope") 400).2.2.2 getUserDisabled 0
      reqDisabled 1 ⟨1, ("disabled")⟩ rfl rfl rfl⟩

/-- Claim C3: when no user is resolved, or the resolved user does not have
at least the required role, the login_required wrapper returns the 401 warn
reply on the left of the sum, which means the wrapped handler is never
invoked. -/
theorem login_required_rejects_unauthorized {α : Type}
    (isRoleAtleast : User → Option String → Bool) (role : Option String)
    (myself : Option User) (method path : String) (func : Unit → α)
    (h : myself = none ∨
      ∃ u, myself = some u ∧ isRoleAtleast u role = false) :
    login_required_call isRoleAtleast role myself method path func =
      Sum.inl (warn_reply (unauthorizedMsg method path myself) 401) ∧
    (warn_reply (unauthorizedMsg method path myself) 401).2.status = 401 ∧
    (warn_reply (unauthorizedMsg method path myself) 401).1.level =
      LogLevel.warning := by
  refine ⟨?_, rfl, rfl⟩
  rcases h with h | ⟨u, hu, hrole⟩
  · subst h
    rfl
  · subst hu
    simp only [login_required_call, _check_user_role]
    rw [hrole]
    rfl

/-- Witness for login_required_rejects_unauthorized with no resolved user
and a required superuser role. -/
theorem login_required_rejects_unauthorized_witness :
    login_required_call (fun _ _ => true) (some ("superuser")) none ("GET")
      ("/api/users") (fun _ => (0 : Nat)) =
      Sum.inl (warn_reply (unauthorizedMsg ("GET") ("/api/users") none) 401) ∧
    (warn_reply (unauthorizedMsg ("GET") ("/api/users") none) 401).2.status =
      401 ∧
    (warn_reply (unauthorizedMsg ("GET") ("/api/users") none) 401).1.level =
      LogLevel.warning :=
  login_required_rejects_unauthorized (fun _ _ => true) (some ("superuser"))
    none ("GET") ("/api/users") (fun _ => (0 : Nat)) (Or.inl rfl)

/-- Replacement of the value stored under one key, the effect of the dict
assignment of the redaction loop. -/
def rk (k : String) (kv : String × String) : String × String :=
  if kv.1 = k then (k, ("X")) else kv

lemma rk_fst (k : String) (kv : String × String) : (rk k kv).1 = kv.1 := by
  unfold rk
  by_cases h : kv.1 = k
  · rw [if_pos h]
    exact h.symm
  · rw [if_neg h]

lemma keysOf_map_rk (k : String) (l : List (String × String)) :
    keysOf (l.map (rk k)) = keysOf l := by
  unfold keysOf
  rw [List.map_map]
  exact List.map_congr_left (fun kv _ => rk_fst k kv)

lemma dictSet_existing (st : List (String × String)) (k : String)
    (h : (keysOf st).contains k = true) :
    dictSet st k ("X") = st.map (rk k) := by
  unfold dictSet
  rw [if_pos h]
  rfl

lemma map_rk_of_not_mem (st : List (String × String)) (k : String)
    (hk : k ∉ keysOf st) : st.map (rk k) = st := by
  have h : ∀ kv ∈ st, rk k kv = kv := by
    intro kv hkv
    unfold rk
    rw [if_neg]
    intro he
    exact hk (he ▸ List.mem_map_of_mem Prod.fst hkv)
  rw [List.map_congr_left h]
  exact List.map_id st

lemma redact_step (p st : List (String × String)) (k : String)
    (hk : keysOf st = keysOf p) :
    (if (keysOf p).contains k then dictSet st k ("X") else st) =
      st.map (rk k) := by
  by_cases h : (keysOf p).contains k = true
  · rw [if_pos h, dictSet_existing st k (by rw [hk]; exact h)]
  · rw [if_neg h]
    symm
    apply map_rk_of_not_mem
    rw [hk]
    intro hmem
    exact h (List.elem_iff.mpr hmem)

lemma redactSecrets_eq_pointwise (p : List (String × String)) :
    redactSecrets p = redactPointwise p := by
  have h1 := redact_step p p ("password") rfl
  have k1 := keysOf_map_rk ("password") p
  have h2 := redact_step p (p.map (rk ("password"))) ("passwd") k1
  have k2 := keysOf_map_rk ("passwd") (p.map (rk ("password")))
  have h3 := redact_step p ((p.map (rk ("password"))).map (rk ("passwd")))
      ("pwd") (k2.trans k1)
  unfold redactSecrets secret_keys
  simp only [List.foldl_cons, List.foldl_nil]
  rw [h1, h2, h3, List.map_map, List.map_map]
  unfold redactPointwise
  apply List.map_congr_left
  intro kv _
  obtain ⟨a, b⟩ := kv
  simp only [Function.comp]
  by_cases c1 : a = ("password")
  · subst c1
    simp [rk, secret_keys]
  · by_cases c2 : a = ("passwd")
    · subst c2
      simp [rk, secret_keys]
    · by_cases c3 : a = ("pwd")
      · subst c3
        simp [rk, secret_keys]
      · simp [rk, secret_keys, c1, c2, c3]

lemma redactPointwise_nil_iff (p : List (String × String)) :
    redactPointwise p = [] ↔ p = [] := by
  unfold redactPointwise
  exact List.map_eq_nil_iff

lemma redactPointwise_nil : redactPointwise [] = [] := rfl

lemma redact_nil_of (p q : List (String × String))
    (h : redactPointwise p = redactPointwise q) (hp : p = []) : q = [] := by
  rw [← redactPointwise_nil_iff, ← h, hp, redactPointwise_nil]

lemma loggedParamsStr_congr (p q : List (String × String))
    (h : redactPointwise p = redactPointwise q) :
    loggedParamsStr p = loggedParamsStr q := by
  unfold loggedParamsStr
  by_cases hp : p = []
  · have hq : q = [] := redact_nil_of p q h hp
    rw [hp, hq]
  · have hq : q ≠ [] := fun h0 => hp (redact_nil_of q p h.symm h0)
    rw [if_neg hp, if_neg hq, redactSecrets_eq_pointwise,
      redactSecrets_eq_pointwise, h]

lemma pickParams_redact_congr (r1 r2 : Request)
    (hj : redactPointwise r1.json = redactPointwise r2.json)
    (ha : redactPointwise r1.args = redactPointwise r2.args)
    (hf : redactPointwise r1.form = redactPointwise r2.form) :
    redactPointwise (pickParams r1) = redactPointwise (pickParams r2) := by
  unfold pickParams
  by_cases h1 : r1.json = []
  · have h2 : r2.json = [] := redact_nil_of r1.json r2.json hj h1
    rw [if_neg (show ¬ r1.json ≠ [] from fun hc => hc h1),
      if_neg (show ¬ r2.json ≠ [] from fun hc => hc h2)]
    by_cases h3 : r1.args = []
    · have h4 : r2.args = [] := redact_nil_of r1.args r2.args ha h3
      rw [if_neg (show ¬ r1.args ≠ [] from fun hc => hc h3),
        if_neg (show ¬ r2.args ≠ [] from fun hc => hc h4)]
      exact hf
    · have h4 : r2.args ≠ [] :=
        fun h0 => h3 (redact_nil_of r2.args r1.args ha.symm h0)
      rw [if_pos (show r1.args ≠ [] from h3),
        if_pos (show r2.args ≠ [] from h4)]
      exact ha
  · have h2 : r2.json ≠ [] :=
      fun h0 => h1 (redact_nil_of r2.json r1.json hj.symm h0)
    rw [if_pos (show r1.json ≠ [] from h1),
      if_pos (show r2.json ≠ [] from h2)]
    exact hj

/-- A login request whose confirm field repeats the password value. -/
def reqLeak : Request :=
  { method := ("POST")
    path := ("/api/login")
    url := ("http://localhost/api/login")
    hostHeader := ("")
    json := [(("password"), ("hunter2")), (("confirm"), ("hunter2"))]
    args := []
    form := []
    sessionUserid := none }

/-- Claim C5 counterexample: the payload stores the secret value hunter2
under the secret key password; the value at that key is redacted to X, yet
the logged line still contains hunter2, because the same string also sits
under the non secret key confirm. -/
theorem secret_value_can_survive_in_logline :
    ((("password"), ("hunter2")) ∈ reqLeak.json) ∧
    strHasSub (before_request_logline reqLeak) ("hunter2") = true ∧
    strHasSub (before_request_logline reqLeak) ("X") = true := by
  refine ⟨by decide, by decide, by decide⟩

/-- Claim C5 amended: every value stored under a secret key is replaced by
the placeholder X in the redacted params, and two requests whose payloads
differ only in values stored under secret keys produce the same log line;
the original value may however still occur in the line when the same string
also appears under a non secret key. -/
theorem logline_secret_redaction (r1 r2 : Request)
    (hm : r1.method = r2.method) (hp : r1.path = r2.path)
    (hj : redactPointwise r1.json = redactPointwise r2.json)
    (ha : redactPointwise r1.args = redactPointwise r2.args)
    (hf : redactPointwise r1.form = redactPointwise r2.form) :
    before_request_logline r1 = before_request_logline r2 ∧
    (∀ kv ∈ pickParams r1, kv.1 ∈ secret_keys →
      (kv.1, ("X")) ∈ redactSecrets (pickParams r1)) := by
  constructor
  · unfold before_request_logline
    rw [hm, hp,
      loggedParamsStr_congr _ _ (pickParams_redact_congr r1 r2 hj ha hf)]
  · intro kv hkv hsec
    rw [redactSecrets_eq_pointwise]
    unfold redactPointwise
    refine List.mem_map.mpr ⟨kv, hkv, ?_⟩
    have hc : secret_keys.contains kv.1 = true := List.elem_iff.mpr hsec
    rw [if_pos hc]

/-- A login request with a password value aaa. -/
def reqPwd1 : Request :=
  { method := ("POST")
    path := ("/api/login")
    url := ("http://localhost/api/login")
    hostHeader := ("")
    json := [(("user"), ("alex")), (("password"), ("aaa"))]
    args := []
    form := []
    sessionUserid := none }

/-- The same request with a different password value. -/
def reqPwd2 : Request := { reqPwd1 with
  json := [(("user"), ("alex")), (("password"), ("bbb"))] }

/-- Witness for logline_secret_redaction: two logins differing only in the
password value log the same line. -/
theorem logline_secret_redaction_witness :
    (redactPointwise reqPwd1.json = redactPointwise reqPwd2.json) ∧
    before_request_logline reqPwd1 = before_request_logline reqPwd2 :=
  ⟨by decide,
    (logline_secret_redaction reqPwd1 reqPwd2 rfl rfl (by decide) (by decide)
      (by decide)).1⟩

/-- Claim C10: the log line records the method only through its first two
characters, so two requests agreeing on those two characters and on
everything else logged are indistinguishable in the log; and the params
string is truncated to at most 1000 characters. -/
theorem logline_two_char_method_and_bounded_params (r1 r2 : Request)
    (hm : pySlice r1.method 2 = pySlice r2.method 2) (hp : r1.path = r2.path)
    (hj : r1.json = r2.json) (ha : r1.args = r2.args)
    (hf : r1.form = r2.form) :
    before_request_logline r1 = before_request_logline r2 ∧
    (∀ r : Request, (loggedParamsStr (pickParams r)).length ≤ 1000) := by
  constructor
  · unfold before_request_logline pickParams
    rw [hm, hp, hj, ha, hf]
  · intro r
    unfold loggedParamsStr pySlice
    simp only [String.length_mk]
    exact List.length_take_le _ _

/-- A GET request without parameters. -/
def reqGet : Request :=
  { method := ("GET")
    path := ("/api/list")
    url := ("http://localhost/api/list")
    hostHeader := ("")
    json := []
    args := []
    form := []
    sessionUserid := none }

/-- The same request with a method sharing the first two characters. -/
def reqGetX : Request := { reqGet with method := ("GETX") }

/-- Witness for logline_two_char_method_and_bounded_params: methods GET and
GETX log the same line, and the empty params string is within the bound. -/
theorem logline_two_char_method_and_bounded_params_witness :
    (pySlice ("GET") 2 = pySlice ("GETX") 2) ∧
    before_request_logline reqGet = before_request_logline reqGetX ∧
    (loggedParamsStr (pickParams reqGet)).length ≤ 1000 :=
  ⟨by decide,
    (logline_two_char_method_and_bounded_params reqGet reqGetX (by decide)
      rfl rfl rfl rfl).1,
    (logline_two_char_method_and_bounded_params reqGet reqGetX (by decide)
      rfl rfl rfl rfl).2 reqGet⟩

end Webutil
